import Mathlib

/-!
Verification of `crx_to_zip` (crx-dl, `src/lib.rs`).

A shallow embedding of the CRX→ZIP converter `crx_to_zip` from `src/lib.rs`.
Byte buffers are modelled as `List Nat` (each element a byte value `0 ≤ b ≤ 255`);
the `BufReader<Cursor<Vec<u8>>>` is modelled by consuming the front of the list
with `read_exact`-style pattern matches, while the final
`seek(SeekFrom::Start(off))` + `read_to_end` pair on the cursor is `List.drop off`
on the original buffer (a `Cursor` seek beyond the end succeeds and the
subsequent `read_to_end` returns an empty vector, exactly as `List.drop` does).

`std::io::Error` values are modelled by `IOError`:
* a failing `read_exact` produces `ErrorKind::UnexpectedEof`
  (modelled `IOError.unexpectedEof`);
* `Error::new(ErrorKind::InvalidData, msg)` is modelled
  `IOError.invalidData msg`.

`String::from_utf8_lossy(&buf) == "Cr24"` for a 4-byte `buf` holds iff the bytes
are exactly `[0x43, 0x72, 0x32, 0x34]` (all four expected bytes are ASCII, and
lossy decoding maps any non-ASCII byte to U+FFFD, which is not one of those
characters), so the magic checks are modelled as byte-list equality.

`u32` arithmetic (`16 + next_four + signature_key_length`, `12 + next_four`)
wraps modulo 2^32, modelled by an explicit `% 4294967296`.

The body of the Rust function is embedded in two layers:
`parse_header` performs every read and check of `crx_to_zip`
(`src/lib.rs` lines 146–212) up to, but not including, the recursive call —
it returns either the error of the failing step, or the `zip_start_offset`
together with, when the nested branch fires (`version == 3` and `opera_buf`
equal to the magic), the `public_key_b64` and the bytes remaining after the
probe.  `crx_to_zip` then performs the recursive call and the final
seek-and-read (lines 208–218).
-/

/-- Errors produced by `crx_to_zip`: `unexpectedEof` is the error a failing
`read_exact` returns; `invalidData msg` is `Error::new(ErrorKind::InvalidData, msg)`. -/
inductive IOError where
  | unexpectedEof : IOError
  | invalidData : String → IOError
deriving DecidableEq, Repr

deriving instance DecidableEq for Except

/-- The little-endian 32-bit read `u32::from_le_bytes([b0, b1, b2, b3])`. -/
def le32 (b0 b1 b2 b3 : Nat) : Nat :=
  b0 + 256 * b1 + 65536 * b2 + 16777216 * b3

/-- The ASCII bytes of the CRX magic signature `"Cr24"`. -/
def crMagic : List Nat := [0x43, 0x72, 0x32, 0x34]

/-- The standard base64 encoding
`base64::engine::general_purpose::STANDARD.encode` of a 4-byte buffer
(two output groups, the second padded with `==`); used for `public_key_b64`
in the version-2 arm. -/
def base64encode4 (a b c d : Nat) : String :=
  let alphabet :=
    "ABCDEFGHIJKLMNOPQRSTUVWXYZabcdefghijklmnopqrstuvwxyz0123456789+/".toList
  let ch := fun n => alphabet.getD n 'A'
  String.mk [ch (a / 4), ch (a % 4 * 16 + b / 16), ch (b % 16 * 4 + c / 64),
    ch (c % 64), ch (d / 4), ch (d % 4 * 16), '=', '=']

/-- The value `public_key_b64` takes in the version-3 arm of `crx_to_zip`
(`src/lib.rs` line 190): the protobuf decoder is unimplemented, so the
identity token is the empty string. -/
def v3_public_key_b64 : String := ""

/-- Outcome of the non-recursive part of `crx_to_zip`:
either the error of the first failing read/check, or `zip_start_offset`
(with `nested` additionally carrying `public_key_b64` and the bytes after
the consumed `opera_buf` probe when the nested branch fires). -/
inductive HeaderOutcome where
  | fail (e : IOError)
  | plain (zip_start_offset : Nat)
  | nested (zip_start_offset : Nat) (public_key_b64 : String) (rest : List Nat)
deriving DecidableEq, Repr

/-- The reads and checks of `crx_to_zip` (`src/lib.rs` lines 146–212) in
source order: magic (4 bytes, compared with `"Cr24"`), `version` (4 bytes,
little-endian), `next_four` (4 bytes, little-endian); for version 2
additionally `signature_key_length` (4 bytes) and `pk_buf` (4 bytes, base64
encoded into `public_key_b64`), for version 3 the placeholder
`public_key_b64`; then for every supported version the `opera_buf` read
(4 bytes).  The nested branch fires iff `version == 3` and `opera_buf` holds
the magic. -/
def parse_header (crx : List Nat) : HeaderOutcome :=
  match crx with
  | m0 :: m1 :: m2 :: m3 :: rest =>
    if [m0, m1, m2, m3] ≠ crMagic then
      .fail (.invalidData "input is not a crx file")
    else
      match rest with
      | v0 :: v1 :: v2 :: v3 :: rest2 =>
        let version := le32 v0 v1 v2 v3
        match rest2 with
        | n0 :: n1 :: n2 :: n3 :: rest3 =>
          let next_four := le32 n0 n1 n2 n3
          if version = 2 then
            match rest3 with
            | s0 :: s1 :: s2 :: s3 :: rest4 =>
              let signature_key_length := le32 s0 s1 s2 s3
              let zip_start_offset :=
                (16 + next_four + signature_key_length) % 4294967296
              match rest4 with
              | p0 :: p1 :: p2 :: p3 :: rest5 =>
                let _public_key_b64 := base64encode4 p0 p1 p2 p3
                -- `opera_buf` read; `version == 3` is false here, so the
                -- nested branch cannot fire
                match rest5 with
                | _ :: _ :: _ :: _ :: _ => .plain zip_start_offset
                | _ => .fail .unexpectedEof
              | _ => .fail .unexpectedEof
            | _ => .fail .unexpectedEof
          else if version = 3 then
            let zip_start_offset := (12 + next_four) % 4294967296
            let public_key_b64 := v3_public_key_b64
            -- `opera_buf` read
            match rest3 with
            | o0 :: o1 :: o2 :: o3 :: rest4 =>
              if [o0, o1, o2, o3] = crMagic then
                .nested zip_start_offset public_key_b64 rest4
              else
                .plain zip_start_offset
            | _ => .fail .unexpectedEof
          else
            .fail (.invalidData "invalid crx version")
        | _ => .fail .unexpectedEof
      | _ => .fail .unexpectedEof
  | _ => .fail .unexpectedEof

/-- The nested branch consumes at least the 16 bytes before `rest`,
so the recursive call of `crx_to_zip` is on a strictly shorter buffer. -/
theorem parse_header_nested_length (crx : List Nat) (off : Nat) (pkb : String)
    (rest : List Nat) (h : parse_header crx = .nested off pkb rest) :
    rest.length < crx.length := by
  unfold parse_header at h
  repeat' split at h
  all_goals try dsimp only at h
  repeat' split at h
  all_goals try cases h
  all_goals simp only [List.length_cons]
  all_goals omega

set_option linter.unusedVariables false in
/-- Shallow embedding of `crx_to_zip` (`src/lib.rs` lines 143–219), built on
`parse_header`.  If `version == 3` and `opera_buf` is the magic, the function
recurses on the remaining bytes — the `?` operator propagates an error from
the recursive call, while a successful recursive result is dropped.  Finally
the cursor seeks to `zip_start_offset` on the original buffer and the
remaining bytes are returned.  (The `println!` diagnostic comparing
`previous_public_key` with `public_key_b64` on a nested mismatch is a side
effect with no influence on the result and is not modelled; this is the only
use of `previous_public_key` in the source.) -/
def crx_to_zip (crx : List Nat) (previous_public_key : Option String) :
    Except IOError (List Nat) :=
  match h : parse_header crx with
  | .fail e => .error e
  | .plain zip_start_offset => .ok (crx.drop zip_start_offset)
  | .nested zip_start_offset public_key_b64 rest =>
    -- "Repeat the process": recursive call, its `Ok` value unused
    match crx_to_zip rest (some public_key_b64) with
    | .error e => .error e
    | .ok _ => .ok (crx.drop zip_start_offset)
termination_by crx.length
decreasing_by exact parse_header_nested_length crx _ _ _ h

/-! ## Bridge lemmas: `crx_to_zip` through the outcome of `parse_header` -/

theorem crx_to_zip_of_fail (crx : List Nat) (pk : Option String) (e : IOError)
    (h : parse_header crx = .fail e) : crx_to_zip crx pk = .error e := by
  unfold crx_to_zip
  split <;> simp_all

theorem crx_to_zip_of_plain (crx : List Nat) (pk : Option String) (off : Nat)
    (h : parse_header crx = .plain off) :
    crx_to_zip crx pk = .ok (crx.drop off) := by
  unfold crx_to_zip
  split <;> simp_all

theorem crx_to_zip_of_nested_error (crx : List Nat) (pk : Option String)
    (off : Nat) (pkb : String) (rest : List Nat) (e : IOError)
    (h : parse_header crx = .nested off pkb rest)
    (he : crx_to_zip rest (some pkb) = .error e) :
    crx_to_zip crx pk = .error e := by
  unfold crx_to_zip
  split <;> simp_all

theorem crx_to_zip_of_nested_ok (crx : List Nat) (pk : Option String)
    (off : Nat) (pkb : String) (rest : List Nat) (w : List Nat)
    (h : parse_header crx = .nested off pkb rest)
    (hw : crx_to_zip rest (some pkb) = .ok w) :
    crx_to_zip crx pk = .ok (crx.drop off) := by
  unfold crx_to_zip
  split <;> simp_all

/-! ## Evaluation lemmas for `parse_header`, one per control path -/

/-- Buffers shorter than the 4-byte magic make the first `read_exact` fail. -/
theorem parse_header_short (crx : List Nat) (h : crx.length < 4) :
    parse_header crx = .fail .unexpectedEof := by
  match crx with
  | [] => rfl
  | [_] => rfl
  | [_, _] => rfl
  | [_, _, _] => rfl
  | _ :: _ :: _ :: _ :: _ => simp only [List.length_cons] at h; omega

/-- A buffer whose first four bytes are not the magic fails the magic check. -/
theorem parse_header_bad_magic (m0 m1 m2 m3 : Nat) (rest : List Nat)
    (h : [m0, m1, m2, m3] ≠ crMagic) :
    parse_header (m0 :: m1 :: m2 :: m3 :: rest) =
      .fail (.invalidData "input is not a crx file") := by
  unfold parse_header
  simp only [if_pos h]

/-- With a good magic and a version other than 2 and 3, the version dispatch
fails — provided the buffer reaches through the `next_four` read. -/
theorem parse_header_bad_version (v0 v1 v2 v3 n0 n1 n2 n3 : Nat)
    (rest : List Nat)
    (h2 : le32 v0 v1 v2 v3 ≠ 2) (h3 : le32 v0 v1 v2 v3 ≠ 3) :
    parse_header (0x43 :: 0x72 :: 0x32 :: 0x34 :: v0 :: v1 :: v2 :: v3 ::
        n0 :: n1 :: n2 :: n3 :: rest) =
      .fail (.invalidData "invalid crx version") := by
  unfold parse_header
  have h1 : ¬([(0x43 : Nat), 0x72, 0x32, 0x34] ≠ crMagic) := by simp [crMagic]
  simp only [if_neg h1]
  simp [h2, h3]

/-- Version-2 path: 16 header bytes, then the `pk_buf` and `opera_buf` reads
consume the first 8 bytes after the header; the offset is the wrapping
`16 + next_four + signature_key_length`. -/
theorem parse_header_v2
    (v0 v1 v2 v3 k0 k1 k2 k3 s0 s1 s2 s3 p0 p1 p2 p3 q0 q1 q2 q3 : Nat)
    (tr : List Nat) (hv : le32 v0 v1 v2 v3 = 2) :
    parse_header (0x43 :: 0x72 :: 0x32 :: 0x34 :: v0 :: v1 :: v2 :: v3 ::
        k0 :: k1 :: k2 :: k3 :: s0 :: s1 :: s2 :: s3 ::
        p0 :: p1 :: p2 :: p3 :: q0 :: q1 :: q2 :: q3 :: tr) =
      .plain ((16 + le32 k0 k1 k2 k3 + le32 s0 s1 s2 s3) % 4294967296) := by
  unfold parse_header
  have h1 : ¬([(0x43 : Nat), 0x72, 0x32, 0x34] ≠ crMagic) := by simp [crMagic]
  simp only [if_neg h1, hv]
  simp

/-- Version-3 path without the nested branch (`opera_buf` differs from the
magic): the offset is the wrapping `12 + next_four`. -/
theorem parse_header_v3_plain (v0 v1 v2 v3 n0 n1 n2 n3 o0 o1 o2 o3 : Nat)
    (tr : List Nat) (hv : le32 v0 v1 v2 v3 = 3)
    (hprobe : [o0, o1, o2, o3] ≠ crMagic) :
    parse_header (0x43 :: 0x72 :: 0x32 :: 0x34 :: v0 :: v1 :: v2 :: v3 ::
        n0 :: n1 :: n2 :: n3 :: o0 :: o1 :: o2 :: o3 :: tr) =
      .plain ((12 + le32 n0 n1 n2 n3) % 4294967296) := by
  unfold parse_header
  have h1 : ¬([(0x43 : Nat), 0x72, 0x32, 0x34] ≠ crMagic) := by simp [crMagic]
  simp only [if_neg h1, hv]
  simp [hprobe]

/-- Version-3 path with the nested branch: the probe bytes are consumed,
and the bytes after them are handed to the recursive call. -/
theorem parse_header_v3_nested (v0 v1 v2 v3 n0 n1 n2 n3 : Nat)
    (tr : List Nat) (hv : le32 v0 v1 v2 v3 = 3) :
    parse_header (0x43 :: 0x72 :: 0x32 :: 0x34 :: v0 :: v1 :: v2 :: v3 ::
        n0 :: n1 :: n2 :: n3 :: 0x43 :: 0x72 :: 0x32 :: 0x34 :: tr) =
      .nested ((12 + le32 n0 n1 n2 n3) % 4294967296) v3_public_key_b64 tr := by
  unfold parse_header
  have h1 : ¬([(0x43 : Nat), 0x72, 0x32, 0x34] ≠ crMagic) := by simp [crMagic]
  simp only [if_neg h1, hv]
  simp [crMagic]

/-! ## Claims -/

/-- C7 counterexample: the empty buffer is shorter than 4 bytes, yet
`crx_to_zip` fails with the `read_exact` end-of-file error, not with the
`NotACrxContainer` error `"input is not a crx file"` the claim requires. -/
theorem C7_counterexample :
    crx_to_zip [] none = .error .unexpectedEof ∧
    crx_to_zip [] none ≠ .error (.invalidData "input is not a crx file") := by
  have hz : crx_to_zip [] none = .error .unexpectedEof :=
    crx_to_zip_of_fail [] none _ (parse_header_short [] (by simp))
  exact ⟨hz, by rw [hz]; decide⟩

/-- C7 (amended): a buffer of at least 4 bytes whose first four bytes are not
`Cr24` fails with the `NotACrxContainer` error `"input is not a crx file"`;
a buffer shorter than 4 bytes instead fails with the `read_exact`
end-of-file error. -/
theorem C7_amended_magic_check :
    (∀ (m0 m1 m2 m3 : Nat) (rest : List Nat) (pk : Option String),
      [m0, m1, m2, m3] ≠ crMagic →
      crx_to_zip (m0 :: m1 :: m2 :: m3 :: rest) pk =
        .error (.invalidData "input is not a crx file")) ∧
    (∀ (crx : List Nat) (pk : Option String), crx.length < 4 →
      crx_to_zip crx pk = .error .unexpectedEof) := by
  constructor
  · intro m0 m1 m2 m3 rest pk h
    exact crx_to_zip_of_fail _ _ _ (parse_header_bad_magic m0 m1 m2 m3 rest h)
  · intro crx pk h
    exact crx_to_zip_of_fail _ _ _ (parse_header_short crx h)

/-- C7 witness: both parts of the amended claim at concrete inputs. -/
theorem C7_witness :
    crx_to_zip [1, 2, 3, 4, 5] none =
      .error (.invalidData "input is not a crx file") ∧
    crx_to_zip [1, 2] none = .error .unexpectedEof :=
  ⟨C7_amended_magic_check.1 1 2 3 4 [5] none (by decide),
   C7_amended_magic_check.2 [1, 2] none (by decide)⟩

/-- C6 counterexample: a buffer with a good magic and version field 99 whose
total length is 8 bytes fails at the `next_four` read with the end-of-file
error, not with the `UnsupportedVersion` error `"invalid crx version"`
— the version dispatch is only reached after the `next_four` read succeeds. -/
theorem C6_counterexample :
    crx_to_zip [0x43, 0x72, 0x32, 0x34, 99, 0, 0, 0] none =
      .error .unexpectedEof ∧
    crx_to_zip [0x43, 0x72, 0x32, 0x34, 99, 0, 0, 0] none ≠
      .error (.invalidData "invalid crx version") := by
  have hz : crx_to_zip [0x43, 0x72, 0x32, 0x34, 99, 0, 0, 0] none =
      .error .unexpectedEof :=
    crx_to_zip_of_fail _ none .unexpectedEof (by decide)
  exact ⟨hz, by rw [hz]; decide⟩

/-- C6 (amended): a buffer of at least 12 bytes whose first four bytes are the
magic and whose little-endian version field is neither 2 nor 3 fails with the
`UnsupportedVersion` error `"invalid crx version"`. -/
theorem C6_amended_unsupported_version :
    ∀ (v0 v1 v2 v3 n0 n1 n2 n3 : Nat) (rest : List Nat) (pk : Option String),
      le32 v0 v1 v2 v3 ≠ 2 → le32 v0 v1 v2 v3 ≠ 3 →
      crx_to_zip (0x43 :: 0x72 :: 0x32 :: 0x34 :: v0 :: v1 :: v2 :: v3 ::
        n0 :: n1 :: n2 :: n3 :: rest) pk =
        .error (.invalidData "invalid crx version") := by
  intro v0 v1 v2 v3 n0 n1 n2 n3 rest pk h2 h3
  exact crx_to_zip_of_fail _ _ _
    (parse_header_bad_version v0 v1 v2 v3 n0 n1 n2 n3 rest h2 h3)

/-- C6 witness: version 99 with a full 12-byte fixed header. -/
theorem C6_witness :
    crx_to_zip [0x43, 0x72, 0x32, 0x34, 99, 0, 0, 0, 0, 0, 0, 0] none =
      .error (.invalidData "invalid crx version") :=
  C6_amended_unsupported_version 99 0 0 0 0 0 0 0 [] none
    (by decide) (by decide)

/-- C10: `crx_to_zip` is total at its interface — for every input buffer and
every `previous_public_key` it returns either an error or a payload, and a
returned payload is always a suffix (`List.drop`) of the input buffer, so no
byte outside the buffer is ever read. -/
theorem C10_total_and_in_bounds :
    ∀ (crx : List Nat) (pk : Option String),
      (∃ e, crx_to_zip crx pk = .error e) ∨
      (∃ n, crx_to_zip crx pk = .ok (crx.drop n)) := by
  intro crx pk
  cases hp : parse_header crx with
  | fail e => exact Or.inl ⟨e, crx_to_zip_of_fail _ _ _ hp⟩
  | plain off => exact Or.inr ⟨off, crx_to_zip_of_plain _ _ _ hp⟩
  | nested off pkb rest =>
    cases hr : crx_to_zip rest (some pkb) with
    | error e => exact Or.inl ⟨e, crx_to_zip_of_nested_error _ _ _ _ _ _ hp hr⟩
    | ok w => exact Or.inr ⟨off, crx_to_zip_of_nested_ok _ _ _ _ _ _ hp hr⟩

/-- C2 counterexample: a 16-byte version-3 buffer declaring header length 100
has `zip_payload_offset = 112`, far beyond the buffer, yet `crx_to_zip`
succeeds with an empty payload instead of failing with any
`TruncatedContainer`-style error. -/
theorem C2_counterexample :
    crx_to_zip [0x43, 0x72, 0x32, 0x34, 3, 0, 0, 0, 100, 0, 0, 0, 0, 0, 0, 0]
      none = .ok [] ∧
    ([0x43, 0x72, 0x32, 0x34, 3, 0, 0, 0, 100, 0, 0, 0, 0, 0, 0, 0] :
      List Nat).length < (12 + le32 100 0 0 0) % 4294967296 := by
  have hz := crx_to_zip_of_plain
    [0x43, 0x72, 0x32, 0x34, 3, 0, 0, 0, 100, 0, 0, 0, 0, 0, 0, 0] none 112
    (by decide)
  exact ⟨by rw [hz]; decide, by decide⟩

/-- C2 (amended): when the computed `zip_payload_offset` exceeds the buffer
length but every fixed read succeeds, `crx_to_zip` never fails with any
`TruncatedContainer`-style check of the offset.  When the nested branch does
not fire (version 3 with a non-magic probe, or version 2), the final seek
lands past the end of the cursor and `read_to_end` returns no bytes, so the
call succeeds with an empty payload.  When the nested branch fires, a
successful recursive call is discarded and the call still succeeds with the
empty payload, while a failing recursive call propagates that inner parse
error through the `?` operator — still never a truncation check of the
outer offset. -/
theorem C2_amended_empty_payload :
    (∀ (n0 n1 n2 n3 o0 o1 o2 o3 : Nat) (tr : List Nat) (pk : Option String),
      [o0, o1, o2, o3] ≠ crMagic →
      (0x43 :: 0x72 :: 0x32 :: 0x34 :: 3 :: 0 :: 0 :: 0 :: n0 :: n1 :: n2 ::
        n3 :: o0 :: o1 :: o2 :: o3 :: tr).length <
        (12 + le32 n0 n1 n2 n3) % 4294967296 →
      crx_to_zip (0x43 :: 0x72 :: 0x32 :: 0x34 :: 3 :: 0 :: 0 :: 0 :: n0 ::
        n1 :: n2 :: n3 :: o0 :: o1 :: o2 :: o3 :: tr) pk = .ok []) ∧
    (∀ (k0 k1 k2 k3 s0 s1 s2 s3 p0 p1 p2 p3 q0 q1 q2 q3 : Nat)
      (tr : List Nat) (pk : Option String),
      (0x43 :: 0x72 :: 0x32 :: 0x34 :: 2 :: 0 :: 0 :: 0 :: k0 :: k1 :: k2 ::
        k3 :: s0 :: s1 :: s2 :: s3 :: p0 :: p1 :: p2 :: p3 :: q0 :: q1 ::
        q2 :: q3 :: tr).length <
        (16 + le32 k0 k1 k2 k3 + le32 s0 s1 s2 s3) % 4294967296 →
      crx_to_zip (0x43 :: 0x72 :: 0x32 :: 0x34 :: 2 :: 0 :: 0 :: 0 :: k0 ::
        k1 :: k2 :: k3 :: s0 :: s1 :: s2 :: s3 :: p0 :: p1 :: p2 :: p3 ::
        q0 :: q1 :: q2 :: q3 :: tr) pk = .ok []) ∧
    (∀ (n0 n1 n2 n3 : Nat) (tr : List Nat) (pk : Option String),
      (0x43 :: 0x72 :: 0x32 :: 0x34 :: 3 :: 0 :: 0 :: 0 :: n0 :: n1 :: n2 ::
        n3 :: 0x43 :: 0x72 :: 0x32 :: 0x34 :: tr).length <
        (12 + le32 n0 n1 n2 n3) % 4294967296 →
      (∀ w, crx_to_zip tr (some v3_public_key_b64) = .ok w →
        crx_to_zip (0x43 :: 0x72 :: 0x32 :: 0x34 :: 3 :: 0 :: 0 :: 0 ::
          n0 :: n1 :: n2 :: n3 :: 0x43 :: 0x72 :: 0x32 :: 0x34 :: tr) pk =
          .ok []) ∧
      (∀ e, crx_to_zip tr (some v3_public_key_b64) = .error e →
        crx_to_zip (0x43 :: 0x72 :: 0x32 :: 0x34 :: 3 :: 0 :: 0 :: 0 ::
          n0 :: n1 :: n2 :: n3 :: 0x43 :: 0x72 :: 0x32 :: 0x34 :: tr) pk =
          .error e)) := by
  refine ⟨?_, ?_, ?_⟩
  · intro n0 n1 n2 n3 o0 o1 o2 o3 tr pk hprobe hlen
    have hz := crx_to_zip_of_plain _ pk _
      (parse_header_v3_plain 3 0 0 0 n0 n1 n2 n3 o0 o1 o2 o3 tr
        (by decide) hprobe)
    rw [hz, List.drop_eq_nil_of_le (Nat.le_of_lt hlen)]
  · intro k0 k1 k2 k3 s0 s1 s2 s3 p0 p1 p2 p3 q0 q1 q2 q3 tr pk hlen
    have hz := crx_to_zip_of_plain _ pk _
      (parse_header_v2 2 0 0 0 k0 k1 k2 k3 s0 s1 s2 s3 p0 p1 p2 p3
        q0 q1 q2 q3 tr (by decide))
    rw [hz, List.drop_eq_nil_of_le (Nat.le_of_lt hlen)]
  · intro n0 n1 n2 n3 tr pk hlen
    have hp := parse_header_v3_nested 3 0 0 0 n0 n1 n2 n3 tr (by decide)
    constructor
    · intro w hw
      have hz := crx_to_zip_of_nested_ok _ pk _ _ _ _ hp hw
      rw [hz, List.drop_eq_nil_of_le (Nat.le_of_lt hlen)]
    · intro e he
      exact crx_to_zip_of_nested_error _ pk _ _ _ _ hp he

/-- C2 witness: all parts of the amended claim at concrete inputs whose
declared lengths point past the end of the buffer — the two non-nested
shapes and the nested shape with a succeeding and with a failing recursive
call. -/
theorem C2_witness :
    crx_to_zip [0x43, 0x72, 0x32, 0x34, 3, 0, 0, 0, 200, 0, 0, 0, 1, 1, 1, 1]
      none = .ok [] ∧
    crx_to_zip [0x43, 0x72, 0x32, 0x34, 2, 0, 0, 0, 255, 0, 0, 0, 0, 0, 0, 0,
      1, 1, 1, 1, 1, 1, 1, 1] none = .ok [] ∧
    crx_to_zip [0x43, 0x72, 0x32, 0x34, 3, 0, 0, 0, 100, 0, 0, 0,
      0x43, 0x72, 0x32, 0x34, 0x43, 0x72, 0x32, 0x34, 3, 0, 0, 0, 0, 0, 0, 0,
      1, 1, 1, 1] none = .ok [] ∧
    crx_to_zip [0x43, 0x72, 0x32, 0x34, 3, 0, 0, 0, 100, 0, 0, 0,
      0x43, 0x72, 0x32, 0x34] none = .error .unexpectedEof :=
  ⟨C2_amended_empty_payload.1 200 0 0 0 1 1 1 1 [] none (by decide) (by decide),
   C2_amended_empty_payload.2.1 255 0 0 0 0 0 0 0 1 1 1 1 1 1 1 1 [] none
     (by decide),
   (C2_amended_empty_payload.2.2 100 0 0 0
       [0x43, 0x72, 0x32, 0x34, 3, 0, 0, 0, 0, 0, 0, 0, 1, 1, 1, 1] none
       (by decide)).1 [1, 1, 1, 1]
     (by rw [crx_to_zip_of_plain
         [0x43, 0x72, 0x32, 0x34, 3, 0, 0, 0, 0, 0, 0, 0, 1, 1, 1, 1]
         (some v3_public_key_b64) 12 (by decide)]; decide),
   (C2_amended_empty_payload.2.2 100 0 0 0 [] none (by decide)).2
     .unexpectedEof
     (crx_to_zip_of_fail [] (some v3_public_key_b64) .unexpectedEof
       (by decide))⟩

/-- C9: the version-2 offset `16 + next_four + signature_key_length` is
computed in wrapping unsigned 32-bit arithmetic — with both declared lengths
`0xFFFFFFFF` the mathematical sum exceeds `2^32 - 1`, the offset actually
used is the sum modulo `2^32` (here 14), and the returned payload is the
suffix from 14, not the suffix from the mathematical sum. -/
theorem C9_offset_wraps_mod_u32 :
    4294967295 < 16 + le32 255 255 255 255 + le32 255 255 255 255 ∧
    (16 + le32 255 255 255 255 + le32 255 255 255 255) % 4294967296 = 14 ∧
    crx_to_zip [0x43, 0x72, 0x32, 0x34, 2, 0, 0, 0, 255, 255, 255, 255,
      255, 255, 255, 255, 0, 1, 2, 3, 4, 5, 6, 7, 8, 9] none =
      .ok [255, 255, 0, 1, 2, 3, 4, 5, 6, 7, 8, 9] ∧
    crx_to_zip [0x43, 0x72, 0x32, 0x34, 2, 0, 0, 0, 255, 255, 255, 255,
      255, 255, 255, 255, 0, 1, 2, 3, 4, 5, 6, 7, 8, 9] none ≠
      .ok (([0x43, 0x72, 0x32, 0x34, 2, 0, 0, 0, 255, 255, 255, 255,
        255, 255, 255, 255, 0, 1, 2, 3, 4, 5, 6, 7, 8, 9] : List Nat).drop
          (16 + le32 255 255 255 255 + le32 255 255 255 255)) := by
  have hz := crx_to_zip_of_plain [0x43, 0x72, 0x32, 0x34, 2, 0, 0, 0,
    255, 255, 255, 255, 255, 255, 255, 255, 0, 1, 2, 3, 4, 5, 6, 7, 8, 9]
    none 14 (by decide)
  exact ⟨by decide, by decide, by rw [hz]; decide, by rw [hz]; decide⟩

/-- C1 counterexample: a version-3 buffer whose probe bytes are a second
`Cr24` with nothing after them makes the recursive call fail on an empty
buffer, and the `?` operator propagates that error — the caller receives the
error, not the suffix at the outer offset 12 that the claim promises
in every nested case. -/
theorem C1_counterexample :
    crx_to_zip [0x43, 0x72, 0x32, 0x34, 3, 0, 0, 0, 0, 0, 0, 0,
      0x43, 0x72, 0x32, 0x34] none = .error .unexpectedEof ∧
    crx_to_zip [0x43, 0x72, 0x32, 0x34, 3, 0, 0, 0, 0, 0, 0, 0,
      0x43, 0x72, 0x32, 0x34] none ≠
      .ok (([0x43, 0x72, 0x32, 0x34, 3, 0, 0, 0, 0, 0, 0, 0,
        0x43, 0x72, 0x32, 0x34] : List Nat).drop 12) := by
  have hr : crx_to_zip [] (some v3_public_key_b64) = .error .unexpectedEof :=
    crx_to_zip_of_fail [] _ _ (by decide)
  have hz := crx_to_zip_of_nested_error
    [0x43, 0x72, 0x32, 0x34, 3, 0, 0, 0, 0, 0, 0, 0, 0x43, 0x72, 0x32, 0x34]
    none 12 v3_public_key_b64 [] .unexpectedEof (by decide) hr
  exact ⟨hz, by rw [hz]; decide⟩

/-- C1 (amended): when the nested branch fires and the recursive parse
succeeds, its result is discarded and the caller receives the suffix of the
original buffer at the outer offset `(12 + header_extra) mod 2^32`; when the
recursive parse fails, however, its error is propagated by the `?` operator
instead. -/
theorem C1_amended_nested_result_unused :
    ∀ (n0 n1 n2 n3 : Nat) (tr : List Nat) (pk : Option String),
      (∀ w, crx_to_zip tr (some v3_public_key_b64) = .ok w →
        crx_to_zip (0x43 :: 0x72 :: 0x32 :: 0x34 :: 3 :: 0 :: 0 :: 0 ::
          n0 :: n1 :: n2 :: n3 :: 0x43 :: 0x72 :: 0x32 :: 0x34 :: tr) pk =
          .ok ((0x43 :: 0x72 :: 0x32 :: 0x34 :: 3 :: 0 :: 0 :: 0 ::
            n0 :: n1 :: n2 :: n3 :: 0x43 :: 0x72 :: 0x32 :: 0x34 :: tr).drop
              ((12 + le32 n0 n1 n2 n3) % 4294967296))) ∧
      (∀ e, crx_to_zip tr (some v3_public_key_b64) = .error e →
        crx_to_zip (0x43 :: 0x72 :: 0x32 :: 0x34 :: 3 :: 0 :: 0 :: 0 ::
          n0 :: n1 :: n2 :: n3 :: 0x43 :: 0x72 :: 0x32 :: 0x34 :: tr) pk =
          .error e) := by
  intro n0 n1 n2 n3 tr pk
  have hp := parse_header_v3_nested 3 0 0 0 n0 n1 n2 n3 tr (by decide)
  constructor
  · intro w hw
    exact crx_to_zip_of_nested_ok _ _ _ _ _ _ hp hw
  · intro e he
    exact crx_to_zip_of_nested_error _ _ _ _ _ _ hp he

/-- C1 witness: a nested container whose inner parse succeeds — the result is
the outer suffix — and one whose inner parse fails — the error propagates. -/
theorem C1_witness :
    crx_to_zip [0x43, 0x72, 0x32, 0x34, 3, 0, 0, 0, 0, 0, 0, 0,
      0x43, 0x72, 0x32, 0x34, 0x43, 0x72, 0x32, 0x34, 3, 0, 0, 0, 0, 0, 0, 0,
      1, 1, 1, 1] none =
      .ok (([0x43, 0x72, 0x32, 0x34, 3, 0, 0, 0, 0, 0, 0, 0,
        0x43, 0x72, 0x32, 0x34, 0x43, 0x72, 0x32, 0x34, 3, 0, 0, 0,
        0, 0, 0, 0, 1, 1, 1, 1] : List Nat).drop
          ((12 + le32 0 0 0 0) % 4294967296)) ∧
    crx_to_zip [0x43, 0x72, 0x32, 0x34, 3, 0, 0, 0, 7, 0, 0, 0,
      0x43, 0x72, 0x32, 0x34, 9] none = .error .unexpectedEof :=
  ⟨(C1_amended_nested_result_unused 0 0 0 0
      [0x43, 0x72, 0x32, 0x34, 3, 0, 0, 0, 0, 0, 0, 0, 1, 1, 1, 1] none).1
      [1, 1, 1, 1]
      (by rw [crx_to_zip_of_plain
          [0x43, 0x72, 0x32, 0x34, 3, 0, 0, 0, 0, 0, 0, 0, 1, 1, 1, 1]
          (some v3_public_key_b64) 12 (by decide)]; decide),
   (C1_amended_nested_result_unused 7 0 0 0 [9] none).2 .unexpectedEof
      (crx_to_zip_of_fail [9] (some v3_public_key_b64) .unexpectedEof
        (parse_header_short [9] (by simp)))⟩

/-- C4: for a version-3 buffer with declared header length
`h = le32 n0 n1 n2 n3` that is well formed — at least 4 bytes follow the
fixed 12-byte header, they are not a nested magic, `12 + h` does not
overflow `u32` and lies within the buffer — `crx_to_zip` returns exactly the
suffix of the input from offset `12 + h`. -/
theorem C4_v3_offset_and_suffix :
    ∀ (n0 n1 n2 n3 : Nat) (tail : List Nat) (pk : Option String),
      4 ≤ tail.length → tail.take 4 ≠ crMagic →
      12 + le32 n0 n1 n2 n3 < 4294967296 →
      12 + le32 n0 n1 n2 n3 ≤
        (0x43 :: 0x72 :: 0x32 :: 0x34 :: 3 :: 0 :: 0 :: 0 ::
          n0 :: n1 :: n2 :: n3 :: tail).length →
      crx_to_zip (0x43 :: 0x72 :: 0x32 :: 0x34 :: 3 :: 0 :: 0 :: 0 ::
        n0 :: n1 :: n2 :: n3 :: tail) pk =
        .ok ((0x43 :: 0x72 :: 0x32 :: 0x34 :: 3 :: 0 :: 0 :: 0 ::
          n0 :: n1 :: n2 :: n3 :: tail).drop (12 + le32 n0 n1 n2 n3)) := by
  intro n0 n1 n2 n3 tail pk h4 htake hlt _hfit
  rcases tail with _ | ⟨o0, tail⟩
  · simp at h4
  rcases tail with _ | ⟨o1, tail⟩
  · simp at h4
  rcases tail with _ | ⟨o2, tail⟩
  · simp at h4
  rcases tail with _ | ⟨o3, tail⟩
  · simp at h4
  have hprobe : [o0, o1, o2, o3] ≠ crMagic := htake
  have hz := crx_to_zip_of_plain _ pk _
    (parse_header_v3_plain 3 0 0 0 n0 n1 n2 n3 o0 o1 o2 o3 tail
      (by decide) hprobe)
  rwa [Nat.mod_eq_of_lt hlt] at hz

/-- C4 witness: a version-3 buffer with header length 4 and payload
`[5, 6, 7, 8]`. -/
theorem C4_witness :
    4 ≤ ([9, 9, 9, 9, 5, 6, 7, 8] : List Nat).length ∧
    crx_to_zip [0x43, 0x72, 0x32, 0x34, 3, 0, 0, 0, 4, 0, 0, 0,
      9, 9, 9, 9, 5, 6, 7, 8] none =
      .ok (([0x43, 0x72, 0x32, 0x34, 3, 0, 0, 0, 4, 0, 0, 0,
        9, 9, 9, 9, 5, 6, 7, 8] : List Nat).drop (12 + le32 4 0 0 0)) :=
  ⟨by decide,
   C4_v3_offset_and_suffix 4 0 0 0 [9, 9, 9, 9, 5, 6, 7, 8] none
     (by decide) (by decide) (by decide) (by decide)⟩

/-- C8: for a well-formed version-3 buffer the conversion succeeds even
though no public key can be extracted — the identity token used for
version 3 is the empty string (`public_key_b64` placeholder), and the
structural extraction of the ZIP payload succeeds independently of it. -/
theorem C8_v3_empty_identity_token :
    ∀ (n0 n1 n2 n3 : Nat) (tail : List Nat) (pk : Option String),
      4 ≤ tail.length → tail.take 4 ≠ crMagic →
      v3_public_key_b64 = "" ∧
      ∃ out, crx_to_zip (0x43 :: 0x72 :: 0x32 :: 0x34 :: 3 :: 0 :: 0 :: 0 ::
        n0 :: n1 :: n2 :: n3 :: tail) pk = .ok out := by
  intro n0 n1 n2 n3 tail pk h4 htake
  refine ⟨rfl, ?_⟩
  rcases tail with _ | ⟨o0, tail⟩
  · simp at h4
  rcases tail with _ | ⟨o1, tail⟩
  · simp at h4
  rcases tail with _ | ⟨o2, tail⟩
  · simp at h4
  rcases tail with _ | ⟨o3, tail⟩
  · simp at h4
  exact ⟨_, crx_to_zip_of_plain _ pk _
    (parse_header_v3_plain 3 0 0 0 n0 n1 n2 n3 o0 o1 o2 o3 tail
      (by decide) htake)⟩

/-- C8 witness: the conversion of a concrete version-3 buffer succeeds with
the empty identity token. -/
theorem C8_witness :
    v3_public_key_b64 = "" ∧
    ∃ out, crx_to_zip [0x43, 0x72, 0x32, 0x34, 3, 0, 0, 0, 0, 0, 0, 0,
      2, 4, 6, 8] none = .ok out :=
  C8_v3_empty_identity_token 0 0 0 0 [2, 4, 6, 8] none (by decide) (by decide)

/-- C5: when the nested branch fires, an error of the recursive call is
returned by the outer call; and because the recursive call receives the
bytes starting after the consumed 4-byte probe, an Opera-style
CRX3-wrapped-CRX2 buffer — whose inner container starts right at offset 12,
so the recursive input starts with the inner version field `[2, 0, 0, 0]`
instead of a magic — always fails with the inner magic-check error
`"input is not a crx file"`. -/
theorem C5_nested_error_propagation :
    (∀ (n0 n1 n2 n3 : Nat) (tr : List Nat) (pk : Option String) (e : IOError),
      crx_to_zip tr (some v3_public_key_b64) = .error e →
      crx_to_zip (0x43 :: 0x72 :: 0x32 :: 0x34 :: 3 :: 0 :: 0 :: 0 ::
        n0 :: n1 :: n2 :: n3 :: 0x43 :: 0x72 :: 0x32 :: 0x34 :: tr) pk =
        .error e) ∧
    (∀ (n0 n1 n2 n3 : Nat) (inner : List Nat) (pk : Option String),
      crx_to_zip (0x43 :: 0x72 :: 0x32 :: 0x34 :: 3 :: 0 :: 0 :: 0 ::
        n0 :: n1 :: n2 :: n3 :: 0x43 :: 0x72 :: 0x32 :: 0x34 ::
        2 :: 0 :: 0 :: 0 :: inner) pk =
        .error (.invalidData "input is not a crx file")) := by
  have propagate : ∀ (n0 n1 n2 n3 : Nat) (tr : List Nat) (pk : Option String)
      (e : IOError), crx_to_zip tr (some v3_public_key_b64) = .error e →
      crx_to_zip (0x43 :: 0x72 :: 0x32 :: 0x34 :: 3 :: 0 :: 0 :: 0 ::
        n0 :: n1 :: n2 :: n3 :: 0x43 :: 0x72 :: 0x32 :: 0x34 :: tr) pk =
        .error e := by
    intro n0 n1 n2 n3 tr pk e he
    exact crx_to_zip_of_nested_error _ _ _ _ _ _
      (parse_header_v3_nested 3 0 0 0 n0 n1 n2 n3 tr (by decide)) he
  refine ⟨propagate, ?_⟩
  intro n0 n1 n2 n3 inner pk
  exact propagate n0 n1 n2 n3 (2 :: 0 :: 0 :: 0 :: inner) pk _
    (crx_to_zip_of_fail _ _ _
      (parse_header_bad_magic 2 0 0 0 inner (by decide)))

/-- C5 witness: both parts at concrete inputs — an inner end-of-file error
propagates, and a wrapped CRX2 fails with the inner magic-check error. -/
theorem C5_witness :
    crx_to_zip [0x43, 0x72, 0x32, 0x34, 3, 0, 0, 0, 0, 0, 0, 0,
      0x43, 0x72, 0x32, 0x34, 5] none = .error .unexpectedEof ∧
    crx_to_zip [0x43, 0x72, 0x32, 0x34, 3, 0, 0, 0, 0, 0, 0, 0,
      0x43, 0x72, 0x32, 0x34, 2, 0, 0, 0] none =
      .error (.invalidData "input is not a crx file") :=
  ⟨C5_nested_error_propagation.1 0 0 0 0 [5] none .unexpectedEof
      (crx_to_zip_of_fail [5] (some v3_public_key_b64) .unexpectedEof
        (parse_header_short [5] (by simp))),
   C5_nested_error_propagation.2 0 0 0 0 [] none⟩

/-- A version-2 buffer whose 16-byte fixed header is followed by at least
8 bytes (enough for the `pk_buf` and `opera_buf` reads) succeeds and returns
the suffix at the wrapping offset. -/
theorem crx_to_zip_v2_of_len (k0 k1 k2 k3 s0 s1 s2 s3 : Nat) (u : List Nat)
    (pk : Option String) (hu : 8 ≤ u.length) :
    crx_to_zip (0x43 :: 0x72 :: 0x32 :: 0x34 :: 2 :: 0 :: 0 :: 0 ::
      k0 :: k1 :: k2 :: k3 :: s0 :: s1 :: s2 :: s3 :: u) pk =
      .ok ((0x43 :: 0x72 :: 0x32 :: 0x34 :: 2 :: 0 :: 0 :: 0 ::
        k0 :: k1 :: k2 :: k3 :: s0 :: s1 :: s2 :: s3 :: u).drop
          ((16 + le32 k0 k1 k2 k3 + le32 s0 s1 s2 s3) % 4294967296)) := by
  rcases u with _ | ⟨p0, u⟩
  · simp at hu
  rcases u with _ | ⟨p1, u⟩
  · simp at hu
  rcases u with _ | ⟨p2, u⟩
  · simp at hu
  rcases u with _ | ⟨p3, u⟩
  · simp at hu
  rcases u with _ | ⟨q0, u⟩
  · simp at hu
  rcases u with _ | ⟨q1, u⟩
  · simp at hu
  rcases u with _ | ⟨q2, u⟩
  · simp at hu
  rcases u with _ | ⟨q3, u⟩
  · simp at hu
  exact crx_to_zip_of_plain _ pk _
    (parse_header_v2 2 0 0 0 k0 k1 k2 k3 s0 s1 s2 s3 p0 p1 p2 p3
      q0 q1 q2 q3 u (by decide))

/-- C3 counterexample: the synthetic version-2 container with key length 0,
signature length 0 and empty payload `Z = []` is exactly the 16-byte header;
the claim demands that conversion return `Z`, but the `pk_buf` read past the
header fails and the call errors instead. -/
theorem C3_counterexample :
    crx_to_zip [0x43, 0x72, 0x32, 0x34, 2, 0, 0, 0, 0, 0, 0, 0, 0, 0, 0, 0]
      none = .error .unexpectedEof ∧
    crx_to_zip [0x43, 0x72, 0x32, 0x34, 2, 0, 0, 0, 0, 0, 0, 0, 0, 0, 0, 0]
      none ≠ .ok [] := by
  have hz : crx_to_zip
      [0x43, 0x72, 0x32, 0x34, 2, 0, 0, 0, 0, 0, 0, 0, 0, 0, 0, 0] none =
      .error .unexpectedEof :=
    crx_to_zip_of_fail _ none .unexpectedEof (by decide)
  exact ⟨hz, by rw [hz]; decide⟩

/-- C3 (amended): the version-2 round trip holds whenever the filler and
payload together hold at least 8 bytes (so the `pk_buf` and `opera_buf`
reads succeed) and `16 + k + s` does not overflow `u32`: converting
`header ++ filler ++ Z` with declared key length `k`, signature length `s`
and `k + s` filler bytes returns exactly `Z`. -/
theorem C3_amended_roundtrip :
    ∀ (k0 k1 k2 k3 s0 s1 s2 s3 : Nat) (filler Z : List Nat)
      (pk : Option String),
      filler.length = le32 k0 k1 k2 k3 + le32 s0 s1 s2 s3 →
      16 + le32 k0 k1 k2 k3 + le32 s0 s1 s2 s3 < 4294967296 →
      8 ≤ filler.length + Z.length →
      crx_to_zip (0x43 :: 0x72 :: 0x32 :: 0x34 :: 2 :: 0 :: 0 :: 0 ::
        k0 :: k1 :: k2 :: k3 :: s0 :: s1 :: s2 :: s3 :: (filler ++ Z)) pk =
        .ok Z := by
  intro k0 k1 k2 k3 s0 s1 s2 s3 filler Z pk hfill hlt hlen
  have h8 : 8 ≤ (filler ++ Z).length := by
    rw [List.length_append]; exact hlen
  have hz := crx_to_zip_v2_of_len k0 k1 k2 k3 s0 s1 s2 s3 (filler ++ Z) pk h8
  rw [Nat.mod_eq_of_lt hlt] at hz
  rw [hz]
  congr 1
  have hrw : (0x43 :: 0x72 :: 0x32 :: 0x34 :: 2 :: 0 :: 0 :: 0 ::
      k0 :: k1 :: k2 :: k3 :: s0 :: s1 :: s2 :: s3 :: (filler ++ Z)) =
      (([0x43, 0x72, 0x32, 0x34, 2, 0, 0, 0,
        k0, k1, k2, k3, s0, s1, s2, s3] ++ filler) ++ Z) := by
    simp
  rw [hrw]
  refine List.drop_left' ?_
  rw [List.length_append, hfill]
  simp [Nat.add_assoc]

/-- C3 witness: key length 1, signature length 2, filler `[7, 7, 7]` and
payload `[1, 2, 3, 4, 5]` round-trip to exactly the payload. -/
theorem C3_witness :
    crx_to_zip [0x43, 0x72, 0x32, 0x34, 2, 0, 0, 0, 1, 0, 0, 0, 2, 0, 0, 0,
      7, 7, 7, 1, 2, 3, 4, 5] none = .ok [1, 2, 3, 4, 5] :=
  C3_amended_roundtrip 1 0 0 0 2 0 0 0 [7, 7, 7] [1, 2, 3, 4, 5] none
    (by decide) (by decide) (by decide)
